import Mathlib

/-!
Shallow embedding of the uploader webhook server (src/server.py) and proofs
about its request-verification protocol, attachment handling, image rendition
pipeline and markup generation.

Python strings are modelled as Lean String values; where the embedding needs
to compute character by character it works on String.data (the underlying
list of characters).  Python exceptions are modelled with Option/Except
result types.  The wall clock (time.time) is modelled as an integer number
of seconds, matching how the repository and its test suite exercise it.
-/

/-- Models the Python builtin int() applied to the digits of a decimal
string: an optional sign followed by one or more digits.  Returns none when
the string is not a valid integer literal, which in Python raises
ValueError. -/
def digitsValCore (acc : Nat) : List Char → Option Nat
  | [] => some acc
  | c :: cs =>
    if c.isDigit then digitsValCore (acc * 10 + (c.toNat - 48)) cs else none

/-- Value of a nonempty list of decimal digit characters. -/
def digitsVal (cs : List Char) : Option Nat :=
  match cs with
  | [] => none
  | _ => digitsValCore 0 cs

/-- Python int() over a character list: optional leading sign, then digits. -/
def pyInt : List Char → Option Int
  | '-' :: cs => (digitsVal cs).map (fun n => -(n : Int))
  | '+' :: cs => (digitsVal cs).map (fun n => (n : Int))
  | cs => (digitsVal cs).map (fun n => (n : Int))

/-- Error taxonomy of verify_mailgun_request.  Each constructor corresponds
to one of the ValueError exceptions the Python function raises:
ReplayDetected for a reused token, Expired for a stale timestamp,
SignatureMismatch for a bad signature, and BadTimestamp for the ValueError
raised by int() on an unparsable timestamp string. -/
inductive VerifyError where
  | ReplayDetected
  | Expired
  | SignatureMismatch
  | BadTimestamp
  deriving DecidableEq

/-- Embedding of verify_mailgun_request from src/server.py.  The function is
parametric in the HMAC-SHA256 hex-digest primitive (hmacSha256Hex key
message), which the source obtains from the hmac and hashlib libraries, in
the shared secret (config mailgun-key), and in the current clock reading
(time.time, in whole seconds).  The process-wide mutable
cached_mailgun_token is passed in explicitly and the updated value is
returned alongside the outcome: none means the Python function returned
normally, some e that it raised the corresponding ValueError.

The source order is kept exactly: (1) compare token against the cached
token and raise ReplayDetected on equality, (2) overwrite the cached token,
(3) parse the timestamp with int() and raise Expired when now - timestamp
exceeds 60 seconds, (4) recompute the HMAC over timestamp concatenated with
token and compare it to the supplied signature with hmac.compare_digest,
raising SignatureMismatch on inequality. -/
def verify_mailgun_request (hmacSha256Hex : String → String → String)
    (apiKey : String) (now : Int) (cached : Option String)
    (timestamp token signature : String) :
    Option String × Option VerifyError :=
  if cached = some token then
    (cached, some .ReplayDetected)
  else
    let cached' := some token
    match pyInt timestamp.data with
    | none => (cached', some .BadTimestamp)
    | some ts =>
      if now - ts > 60 then
        (cached', some .Expired)
      else
        let computed := hmacSha256Hex apiKey (timestamp ++ token)
        if computed ≠ signature then
          (cached', some .SignatureMismatch)
        else
          (cached', none)

/-- C1: for a valid triple (timestamp, token, secret) whose signature is the
HMAC-SHA256 hex digest of timestamp concatenated with token, verification
succeeds once (updating the cached token), and a second call with the
identical token fails with ReplayDetected regardless of the timestamp and
signature supplied to it, leaving the cached token unchanged. -/
theorem verify_replay_rejects_second_use
    (H : String → String → String) (key : String) (now : Int)
    (cached : Option String) (timestamp token : String) (n : Int)
    (hfirst : cached ≠ some token)
    (hparse : pyInt timestamp.data = some n)
    (hfresh : now - n ≤ 60) :
    verify_mailgun_request H key now cached timestamp token
        (H key (timestamp ++ token)) = (some token, none) ∧
    ∀ (now₂ : Int) (timestamp₂ signature₂ : String),
      verify_mailgun_request H key now₂ (some token) timestamp₂ token
          signature₂ = (some token, some .ReplayDetected) := by
  constructor
  · simp only [verify_mailgun_request, hparse, if_neg hfirst]
    rw [if_neg (by omega), if_neg (by simp)]
  · intro now₂ timestamp₂ signature₂
    simp [verify_mailgun_request]

/-- Closed witness for verify_replay_rejects_second_use at a concrete
input. -/
theorem verify_replay_rejects_second_use_witness :
    verify_mailgun_request (fun k m => k ++ m) "secret" 100 none "90" "tok"
        ((fun k m => k ++ m) "secret" ("90" ++ "tok")) = (some "tok", none) ∧
    verify_mailgun_request (fun k m => k ++ m) "secret" 100 (some "tok")
        "90" "tok" "whatever" = (some "tok", some .ReplayDetected) := by
  have h := verify_replay_rejects_second_use (fun k m => k ++ m) "secret"
    100 none "90" "tok" 90 (by simp) (by decide) (by omega)
  exact ⟨h.1, h.2 100 "90" "whatever"⟩

/-- C2: the checks run in the order replay, freshness, signature, and the
cached token is overwritten on every call: the outcome is ReplayDetected
exactly when the incoming token equals the cached one (eclipsing the other
checks); a distinct stale token yields Expired even when the signature is
also wrong; a distinct fresh token with a wrong signature yields
SignatureMismatch; the state after every call is some token, so only a
ReplayDetected failure (where the cached token already equals the incoming
token) leaves the stored value equal to its prior value. -/
theorem verify_check_order_and_state_update
    (H : String → String → String) (key : String) (now : Int)
    (cached : Option String) (timestamp token signature : String) (n : Int)
    (hparse : pyInt timestamp.data = some n) :
    ((verify_mailgun_request H key now cached timestamp token
        signature).2 = some .ReplayDetected ↔ cached = some token) ∧
    (verify_mailgun_request H key now cached timestamp token
        signature).1 = some token ∧
    (cached ≠ some token → now - n > 60 →
      (verify_mailgun_request H key now cached timestamp token
          signature).2 = some .Expired) ∧
    (cached ≠ some token → now - n ≤ 60 →
        H key (timestamp ++ token) ≠ signature →
      (verify_mailgun_request H key now cached timestamp token
          signature).2 = some .SignatureMismatch) := by
  unfold verify_mailgun_request
  by_cases hc : cached = some token
  · simp [hc]
  · rw [if_neg hc]
    simp only [hparse]
    refine ⟨?_, ?_, ?_, ?_⟩
    · constructor
      · intro h
        by_cases hf : now - n > 60
        · rw [if_pos hf] at h; exact absurd (Option.some.inj h) (by simp)
        · rw [if_neg hf] at h
          by_cases hs : H key (timestamp ++ token) ≠ signature
          · rw [if_pos hs] at h; exact absurd (Option.some.inj h) (by simp)
          · rw [if_neg hs] at h; exact absurd h (by simp)
      · intro h; exact absurd h hc
    · by_cases hf : now - n > 60
      · rw [if_pos hf]
      · rw [if_neg hf]
        by_cases hs : H key (timestamp ++ token) ≠ signature
        · rw [if_pos hs]
        · rw [if_neg hs]
    · intro _ hf; rw [if_pos hf]
    · intro _ hf hs
      rw [if_neg (by omega), if_pos hs]

/-- Closed witness for verify_check_order_and_state_update at a concrete
input. -/
theorem verify_check_order_and_state_update_witness :
    ((verify_mailgun_request (fun k m => k ++ m) "k" 200 (some "old") "50"
        "tok" "bad").2 = some VerifyError.ReplayDetected ↔
      (some "old" : Option String) = some "tok") ∧
    (verify_mailgun_request (fun k m => k ++ m) "k" 200 (some "old") "50"
        "tok" "bad").1 = some "tok" ∧
    ((some "old" : Option String) ≠ some "tok" → (200 : Int) - 50 > 60 →
      (verify_mailgun_request (fun k m => k ++ m) "k" 200 (some "old") "50"
          "tok" "bad").2 = some VerifyError.Expired) ∧
    ((some "old" : Option String) ≠ some "tok" → (200 : Int) - 50 ≤ 60 →
        (fun k m => k ++ m) "k" ("50" ++ "tok") ≠ "bad" →
      (verify_mailgun_request (fun k m => k ++ m) "k" 200 (some "old") "50"
          "tok" "bad").2 = some VerifyError.SignatureMismatch) :=
  verify_check_order_and_state_update (fun k m => k ++ m) "k" 200
    (some "old") "50" "tok" "bad" 50 (by decide)

/-- C3: with a token distinct from the cached one and a parsable timestamp,
the call fails with Expired exactly when now minus the parsed timestamp is
strictly greater than 60 seconds, independently of the supplied signature;
at a difference of at most 60 seconds (including exactly 60) the freshness
check passes and the outcome is never Expired. -/
theorem verify_freshness_boundary
    (H : String → String → String) (key : String) (now : Int)
    (cached : Option String) (timestamp token signature : String) (n : Int)
    (hdistinct : cached ≠ some token)
    (hparse : pyInt timestamp.data = some n) :
    (now - n > 60 →
      (verify_mailgun_request H key now cached timestamp token
          signature).2 = some .Expired) ∧
    (now - n ≤ 60 →
      (verify_mailgun_request H key now cached timestamp token
          signature).2 ≠ some .Expired) := by
  unfold verify_mailgun_request
  rw [if_neg hdistinct]
  simp only [hparse]
  constructor
  · intro hf; rw [if_pos hf]
  · intro hf
    rw [if_neg (by omega)]
    by_cases hs : H key (timestamp ++ token) ≠ signature
    · rw [if_pos hs]; simp
    · rw [if_neg hs]; simp

/-- Closed witness for verify_freshness_boundary: a 61-second-old request is
rejected as Expired even with a correct signature, and a 60-second-old one
is not. -/
theorem verify_freshness_boundary_witness :
    ((161 : Int) - 100 > 60 →
      (verify_mailgun_request (fun k m => k ++ m) "k" 161 none "100" "tok"
          "k100tok").2 = some VerifyError.Expired) ∧
    ((161 : Int) - 100 ≤ 60 →
      (verify_mailgun_request (fun k m => k ++ m) "k" 161 none "100" "tok"
          "k100tok").2 ≠ some VerifyError.Expired) :=
  verify_freshness_boundary (fun k m => k ++ m) "k" 161 none "100" "tok"
    "k100tok" 100 (by simp) (by decide)

/-- C4: once a call has passed the replay check (distinct token) and the
freshness check (difference at most 60 seconds), it fails with
SignatureMismatch exactly when the supplied signature differs from the
HMAC-SHA256 hex digest, keyed by the shared secret, of the timestamp string
concatenated with the token string; when the signature equals that digest
the call succeeds. -/
theorem verify_signature_check
    (H : String → String → String) (key : String) (now : Int)
    (cached : Option String) (timestamp token signature : String) (n : Int)
    (hdistinct : cached ≠ some token)
    (hparse : pyInt timestamp.data = some n)
    (hfresh : now - n ≤ 60) :
    ((verify_mailgun_request H key now cached timestamp token
        signature).2 = some .SignatureMismatch ↔
      signature ≠ H key (timestamp ++ token)) ∧
    (signature = H key (timestamp ++ token) →
      verify_mailgun_request H key now cached timestamp token
          signature = (some token, none)) := by
  unfold verify_mailgun_request
  rw [if_neg hdistinct]
  simp only [hparse]
  rw [if_neg (by omega)]
  constructor
  · by_cases hs : H key (timestamp ++ token) ≠ signature
    · rw [if_pos hs]; simp; exact fun h => absurd h.symm hs
    · rw [if_neg hs]
      push_neg at hs
      simp [hs]
  · intro hs
    rw [if_neg (by simp [hs])]

/-- Closed witness for verify_signature_check at a concrete input. -/
theorem verify_signature_check_witness :
    ((verify_mailgun_request (fun k m => k ++ m) "k" 100 none "90" "tok"
        "wrong").2 = some VerifyError.SignatureMismatch ↔
      "wrong" ≠ (fun k m => k ++ m) "k" ("90" ++ "tok")) ∧
    ("wrong" = (fun k m => k ++ m) "k" ("90" ++ "tok") →
      verify_mailgun_request (fun k m => k ++ m) "k" 100 none "90" "tok"
          "wrong" = (some "tok", none)) :=
  verify_signature_check (fun k m => k ++ m) "k" 100 none "90" "tok"
    "wrong" 90 (by simp) (by decide) (by omega)

/-- Embedding of the module-level ORIENTATIONS list from src/server.py: a
nine-element list indexed by the EXIF orientation tag value, holding the
rotation in degrees to hand to PIL Image.rotate (negative values rotate
clockwise, so -180 is a 180-degree rotation, -90 a 90-degree one and -270 a
270-degree one), or none when no rotation is to be applied. -/
def ORIENTATIONS : List (Option Int) :=
  [none, none, none, some (-180), none, none, some (-90), none, some (-270)]

/-- Size effect of PIL Image.rotate(deg, expand = True) for the right-angle
rotations stored in ORIENTATIONS: with the canvas expanded to fit the
rotated content, a rotation by an odd multiple of 90 degrees swaps width
and height, an even multiple keeps them. -/
def rotate_expand_size (deg : Int) (wh : Nat × Nat) : Nat × Nat :=
  if deg % 180 = 0 then wh else (wh.2, wh.1)

/-- Round-half-to-even on rationals: the semantics of the Python builtin
round applied to the exact quotients computed in resize_image. -/
def round_half_even (q : ℚ) : ℤ :=
  if q - ⌊q⌋ < 1/2 then ⌊q⌋
  else if 1/2 < q - ⌊q⌋ then ⌊q⌋ + 1
  else if ⌊q⌋ % 2 = 0 then ⌊q⌋ else ⌊q⌋ + 1

/-- The four target long-edge sizes hard-coded in resize_image. -/
def resize_targets : List ℚ := [320, 640, 960, 1280]

/-- The expression ORIENTATIONS[metadata.get(Orientation, 0)] from
resize_image: the metadata dictionary is modelled by its optional
Orientation entry.  none models the IndexError raised when the orientation
value indexes past the end of the nine-element list. -/
def degree_to_rotate (orientation : Option Nat) : Option (Option Int) :=
  ORIENTATIONS.get? (orientation.getD 0)

/-- Dimensions of the image after the optional orientation-correcting
rotation in resize_image, or none when the ORIENTATIONS lookup raises. -/
def oriented_size (wh : Nat × Nat) (orientation : Option Nat) :
    Option (Nat × Nat) :=
  (degree_to_rotate orientation).map (fun d =>
    match d with
    | some deg => rotate_expand_size deg wh
    | none => wh)

/-- The expression width if width > height else height from resize_image. -/
def larger_dimension (wh : Nat × Nat) : Nat :=
  if wh.1 > wh.2 then wh.1 else wh.2

/-- Embedding of resize_image from src/server.py.  A PIL image is modelled
by its pixel dimensions, which is all the function inspects, and the result
is the list of the sizes (round(width * s), round(height * s)) of the four
resized images, for the scale factors s mapping the larger dimension to
each target.  none models the two exceptions of the source: the IndexError
raised by the ORIENTATIONS lookup on an out-of-range orientation value,
and the ZeroDivisionError raised by the scales computation (320.0 divided
by the larger dimension) when the image is 0 by 0 pixels. -/
def resize_image (wh : Nat × Nat) (orientation : Option Nat) :
    Option (List (ℤ × ℤ)) :=
  match oriented_size wh orientation with
  | none => none
  | some wh' =>
    if larger_dimension wh' = 0 then none
    else
      let scales :=
        resize_targets.map (fun x => x / (larger_dimension wh' : ℚ))
      some (scales.map (fun s =>
        (round_half_even ((wh'.1 : ℚ) * s),
         round_half_even ((wh'.2 : ℚ) * s))))

theorem larger_dimension_eq_zero_iff (wh : Nat × Nat) :
    larger_dimension wh = 0 ↔ wh = (0, 0) := by
  rcases wh with ⟨a, b⟩
  show (if a > b then a else b) = 0 ↔ (a, b) = (0, 0)
  simp only [Prod.mk.injEq]
  by_cases h : a > b
  · rw [if_pos h]; omega
  · rw [if_neg h]; omega

theorem rotate_expand_size_eq_zero_iff (deg : Int) (wh : Nat × Nat) :
    rotate_expand_size deg wh = (0, 0) ↔ wh = (0, 0) := by
  rcases wh with ⟨a, b⟩
  show (if deg % 180 = 0 then (a, b) else (b, a)) = (0, 0) ↔ (a, b) = (0, 0)
  by_cases h : deg % 180 = 0
  · rw [if_pos h]
  · rw [if_neg h]
    simp only [Prod.mk.injEq]
    omega

theorem oriented_size_ne_zero {wh wh' : Nat × Nat} {o : Option Nat}
    (hor : oriented_size wh o = some wh') (hwz : wh ≠ (0, 0)) :
    wh' ≠ (0, 0) := by
  rw [oriented_size] at hor
  cases hdg : degree_to_rotate o with
  | none => rw [hdg] at hor; exact absurd hor (by simp)
  | some d =>
    rw [hdg] at hor
    simp only [Option.map_some', Option.some.injEq] at hor
    subst hor
    cases d with
    | none => exact hwz
    | some deg =>
      intro hc
      exact hwz ((rotate_expand_size_eq_zero_iff deg wh).mp hc)

theorem resize_image_eq_of_oriented (wh : Nat × Nat) (o : Option Nat)
    (wh' : Nat × Nat) (hor : oriented_size wh o = some wh') :
    resize_image wh o =
      if larger_dimension wh' = 0 then none
      else
        some ((resize_targets.map
            (fun x => x / (larger_dimension wh' : ℚ))).map (fun s =>
          (round_half_even ((wh'.1 : ℚ) * s),
           round_half_even ((wh'.2 : ℚ) * s)))) := by
  rw [resize_image, hor]

/-- C5 counterexample: orientation tag value 9 is not one of 3, 6, 8, yet
resize_image does not succeed without rotation on it; the ORIENTATIONS
lookup raises IndexError (the list has indices 0 through 8 only). -/
theorem resize_image_orientation_nine_raises :
    resize_image (1600, 1200) (some 9) = none := rfl

/-- C5 (amended): orientation value 3 maps to a (clockwise) 180-degree
rotation, 6 to a 90-degree rotation and 8 to a 270-degree rotation, each
with the canvas expanded to fit (the odd ones swap the dimensions); every
other orientation value up to 8, and an absent tag, applies no rotation,
and resize_image succeeds for every orientation value up to 8 on every
image with at least one nonzero dimension (a 0 by 0 image instead raises
ZeroDivisionError at the scale computation); values greater than 8 make
the ORIENTATIONS lookup raise IndexError instead. -/
theorem resize_image_orientation_mapping :
    degree_to_rotate (some 3) = some (some (-180)) ∧
    degree_to_rotate (some 6) = some (some (-90)) ∧
    degree_to_rotate (some 8) = some (some (-270)) ∧
    (∀ w h : Nat, rotate_expand_size (-180) (w, h) = (w, h) ∧
      rotate_expand_size (-90) (w, h) = (h, w) ∧
      rotate_expand_size (-270) (w, h) = (h, w)) ∧
    (∀ o : Nat, o ≤ 8 → o ≠ 3 → o ≠ 6 → o ≠ 8 →
      degree_to_rotate (some o) = some none) ∧
    degree_to_rotate none = some none ∧
    (∀ (wh : Nat × Nat) (o : Option Nat), o.getD 0 ≤ 8 → wh ≠ (0, 0) →
      ∃ sizes, resize_image wh o = some sizes) := by
  refine ⟨by decide, by decide, by decide, ?_, ?_, by decide, ?_⟩
  · intro w h
    refine ⟨?_, ?_, ?_⟩ <;> simp [rotate_expand_size]
  · intro o h8 h3 h6 hh8
    interval_cases o <;> simp_all <;> decide
  · intro wh o ho hwz
    have hlen : o.getD 0 < ORIENTATIONS.length := by
      simp only [ORIENTATIONS, List.length]; omega
    have hd := List.get?_eq_get hlen
    have hosome : (oriented_size wh o).isSome := by
      rw [oriented_size, degree_to_rotate, hd]
      rfl
    obtain ⟨wh', hor⟩ := Option.isSome_iff_exists.mp hosome
    have hz' : wh' ≠ (0, 0) := oriented_size_ne_zero hor hwz
    have h0 : larger_dimension wh' ≠ 0 := fun hc =>
      hz' ((larger_dimension_eq_zero_iff wh').mp hc)
    simp only [resize_image_eq_of_oriented wh o wh' hor, if_neg h0]
    exact ⟨_, rfl⟩

/-- Closed witness for resize_image_orientation_mapping at concrete
inputs. -/
theorem resize_image_orientation_mapping_witness :
    rotate_expand_size (-90) (1600, 1200) = (1200, 1600) ∧
    degree_to_rotate (some 5) = some none ∧
    ∃ sizes, resize_image (30, 40) (some 2) = some sizes :=
  ⟨(resize_image_orientation_mapping.2.2.2.1 1600 1200).2.1,
   resize_image_orientation_mapping.2.2.2.2.1 5 (by decide) (by decide)
     (by decide) (by decide),
   resize_image_orientation_mapping.2.2.2.2.2.2 (30, 40) (some 2)
     (by decide) (by decide)⟩

/-- C6 counterexample: resize_image does not always produce four
renditions; with orientation tag value 10 the ORIENTATIONS lookup raises
IndexError and the call produces nothing. -/
theorem resize_image_orientation_ten_raises :
    resize_image (800, 600) (some 10) = none := rfl

/-- C6 (amended): resize_image produces renditions exactly when the
orientation lookup succeeds and the image is not 0 by 0 (an out-of-range
orientation raises IndexError, a 0 by 0 image ZeroDivisionError); whenever
it produces renditions there are exactly four, in ascending target order
320, 640, 960, 1280, where each size is (round(width * t / L),
round(height * t / L)) for the possibly rotated dimensions and L their
larger member, so the larger dimension is scaled exactly to each target
and the other proportionally with round-half-to-even; concretely, a 1600
by 1200 source with no orientation tag yields [(320,240), (640,480),
(960,720), (1280,960)] and the same source with orientation value 6 yields
[(240,320), (480,640), (720,960), (960,1280)]. -/
theorem resize_image_four_renditions :
    (∀ (wh : Nat × Nat) (o : Option Nat) (wh' : Nat × Nat)
        (sizes : List (ℤ × ℤ)),
      oriented_size wh o = some wh' → resize_image wh o = some sizes →
      sizes.length = 4 ∧
      sizes = resize_targets.map (fun t =>
        (round_half_even ((wh'.1 : ℚ) * (t / (larger_dimension wh' : ℚ))),
         round_half_even ((wh'.2 : ℚ) * (t / (larger_dimension wh' : ℚ))))) ∧
      (if wh'.1 > wh'.2 then sizes.map Prod.fst else sizes.map Prod.snd) =
        [320, 640, 960, 1280]) ∧
    (∀ (wh : Nat × Nat) (o : Option Nat) (wh' : Nat × Nat),
      oriented_size wh o = some wh' → larger_dimension wh' = 0 →
      resize_image wh o = none) ∧
    resize_image (1600, 1200) none =
      some [(320, 240), (640, 480), (960, 720), (1280, 960)] ∧
    resize_image (1600, 1200) (some 6) =
      some [(240, 320), (480, 640), (720, 960), (960, 1280)] := by
  refine ⟨?_, ?_, ?_, ?_⟩
  · intro wh o wh' sizes hor hres
    rw [resize_image_eq_of_oriented wh o wh' hor] at hres
    by_cases h0 : larger_dimension wh' = 0
    · rw [if_pos h0] at hres
      exact absurd hres (by simp)
    · rw [if_neg h0] at hres
      simp only [Option.some.injEq] at hres
      subst hres
      refine ⟨by simp [resize_targets], by simp, ?_⟩
      by_cases hgt : wh'.1 > wh'.2
      · rw [if_pos hgt]
        have hL : larger_dimension wh' = wh'.1 := if_pos hgt
        have hne : ((wh'.1 : ℚ)) ≠ 0 :=
          Nat.cast_ne_zero.mpr (by rw [hL] at h0; exact h0)
        simp only [List.map_map, resize_targets, List.map, Function.comp,
          hL]
        norm_num [mul_div_assoc]
        rw [mul_div_cancel₀ _ hne, mul_div_cancel₀ _ hne,
          mul_div_cancel₀ _ hne, mul_div_cancel₀ _ hne]
        norm_num [round_half_even]
      · rw [if_neg hgt]
        have hL : larger_dimension wh' = wh'.2 := if_neg hgt
        have hne : ((wh'.2 : ℚ)) ≠ 0 :=
          Nat.cast_ne_zero.mpr (by rw [hL] at h0; exact h0)
        simp only [List.map_map, resize_targets, List.map, Function.comp,
          hL]
        norm_num [mul_div_assoc]
        rw [mul_div_cancel₀ _ hne, mul_div_cancel₀ _ hne,
          mul_div_cancel₀ _ hne, mul_div_cancel₀ _ hne]
        norm_num [round_half_even]
  · intro wh o wh' hor h0
    rw [resize_image_eq_of_oriented wh o wh' hor, if_pos h0]
  · simp only [resize_image, oriented_size, degree_to_rotate, ORIENTATIONS,
      resize_targets, larger_dimension]
    norm_num [List.get?, round_half_even]
  · simp only [resize_image, oriented_size, degree_to_rotate, ORIENTATIONS,
      resize_targets, rotate_expand_size, larger_dimension]
    norm_num [List.get?, round_half_even]

/-- Closed witness for resize_image_four_renditions at a concrete input. -/
theorem resize_image_four_renditions_witness :
    resize_image (1600, 1200) none =
      some [(320, 240), (640, 480), (960, 720), (1280, 960)] ∧
    ([((320 : ℤ), (240 : ℤ)), (640, 480), (960, 720),
      (1280, 960)]).length = 4 :=
  ⟨resize_image_four_renditions.2.2.1,
   (resize_image_four_renditions.1 (1600, 1200) none (1600, 1200) _
     (by decide) resize_image_four_renditions.2.2.1).1⟩

/-- The template placeholder assets_url from create_img_tag (the braces are
literal text destined for an external templating layer). -/
def assets_url : String := "\x7b\x7b site.assets_url \x7d\x7d"

/-- The format string %s/%d-%d.jpg applied to (assets_url, oid, w) in
create_img_tag. -/
def asset_src (oid w : Nat) : String :=
  assets_url ++ "/" ++ toString oid ++ "-" ++ toString w ++ ".jpg"

/-- One member of the srcset list comprehension in create_img_tag: the
rendition path annotated with its width and a w descriptor. -/
def srcset_entry (oid w : Nat) : String :=
  asset_src oid w ++ " " ++ toString w ++ "w"

/-- The src attribute of the generated tag, pointing at the rendition of
width w1 = widths[1]. -/
def src_attr (oid w1 : Nat) : String := "src=\"" ++ asset_src oid w1 ++ "\""

/-- The srcset attribute of the generated tag, listing exactly four
entries. -/
def srcset_attr4 (s0 s1 s2 s3 : String) : String :=
  "srcset=\"" ++ s0 ++ ", " ++ s1 ++ ", " ++ s2 ++ ", " ++ s3 ++ "\""

/-- The fixed responsive sizing rule of the generated tag. -/
def sizes_attr : String :=
  "sizes=\"(min-width: 700px) 50vw, calc(100vw - 2rem)\""

/-- The accessibility attribute referencing the external templating
placeholder page.summary. -/
def alt_attr : String := "alt=\"\x7b\x7b page.summary \x7d\x7d\""

/-- Embedding of create_img_tag from src/server.py.  The default source
uses widths[1]; the srcset string is built by the format call with
placeholders 0 through 3 applied to the whole srcset list, so it uses
exactly its first four members; the alt attribute is appended only when
summary is truthy (a nonempty string).  none models the IndexError raised
either by widths[1] on a list shorter than two or by the format call when
the srcset list has fewer than four members.  The output string is
character for character the one the Python code assembles; it is grouped
here attribute by attribute. -/
def create_img_tag (oid : Nat) (widths : List Nat) (summary : String) :
    Option String :=
  match widths.get? 1 with
  | none => none
  | some w1 =>
    let srcset := widths.map (srcset_entry oid)
    match srcset.get? 0, srcset.get? 1, srcset.get? 2, srcset.get? 3 with
    | some s0, some s1, some s2, some s3 =>
      some ("<img " ++ src_attr oid w1 ++ " " ++ srcset_attr4 s0 s1 s2 s3 ++
        " " ++ sizes_attr ++ " " ++
        (if summary = "" then "" else alt_attr ++ " ") ++ "/>")
    | _, _, _, _ => none

/-- The substring relation on strings, via their character lists. -/
def occursIn (p t : String) : Prop := p.data <:+: t.data

theorem occursIn_of_eq (y x z t : String) (h : t = x ++ (y ++ z)) :
    occursIn y t := by
  subst h
  refine ⟨x.data, z.data, ?_⟩
  simp [String.data_append]

/-- C7: for every identifier, ascending four-element widths list and
caption flag, create_img_tag succeeds and its output contains a default
source naming the second-smallest rendition oid-widths[1].jpg, a srcset
attribute listing all four renditions in ascending width order each with a
w descriptor, and the fixed sizing rule; the accessibility attribute is
present when the caption flag is truthy and the output is exactly the tag
without it when the flag is falsy. -/
theorem create_img_tag_spec (oid a b c d : Nat) (summary : String)
    (hab : a < b) (hbc : b < c) (hcd : c < d) :
    ∃ tag, create_img_tag oid [a, b, c, d] summary = some tag ∧
      occursIn (src_attr oid b) tag ∧
      occursIn (srcset_attr4 (srcset_entry oid a) (srcset_entry oid b)
        (srcset_entry oid c) (srcset_entry oid d)) tag ∧
      occursIn sizes_attr tag ∧
      (summary = "" →
        tag = "<img " ++ src_attr oid b ++ " " ++
          srcset_attr4 (srcset_entry oid a) (srcset_entry oid b)
            (srcset_entry oid c) (srcset_entry oid d) ++ " " ++ sizes_attr ++
          " " ++ "/>") ∧
      (summary ≠ "" →
        occursIn alt_attr tag ∧
        tag = "<img " ++ src_attr oid b ++ " " ++
          srcset_attr4 (srcset_entry oid a) (srcset_entry oid b)
            (srcset_entry oid c) (srcset_entry oid d) ++ " " ++ sizes_attr ++
          " " ++ (alt_attr ++ " ") ++ "/>") := by
  refine ⟨"<img " ++ src_attr oid b ++ " " ++
      srcset_attr4 (srcset_entry oid a) (srcset_entry oid b)
        (srcset_entry oid c) (srcset_entry oid d) ++ " " ++ sizes_attr ++
      " " ++ (if summary = "" then "" else alt_attr ++ " ") ++ "/>",
    rfl, ?_, ?_, ?_, ?_, ?_⟩
  · exact occursIn_of_eq (src_attr oid b) "<img "
      (" " ++ srcset_attr4 (srcset_entry oid a) (srcset_entry oid b)
        (srcset_entry oid c) (srcset_entry oid d) ++ " " ++ sizes_attr ++
        " " ++ (if summary = "" then "" else alt_attr ++ " ") ++ "/>") _
      (by simp only [String.append_assoc])
  · exact occursIn_of_eq _ ("<img " ++ src_attr oid b ++ " ")
      (" " ++ sizes_attr ++ " " ++
        (if summary = "" then "" else alt_attr ++ " ") ++ "/>") _
      (by simp only [String.append_assoc])
  · exact occursIn_of_eq sizes_attr
      ("<img " ++ src_attr oid b ++ " " ++
        srcset_attr4 (srcset_entry oid a) (srcset_entry oid b)
          (srcset_entry oid c) (srcset_entry oid d) ++ " ")
      (" " ++ (if summary = "" then "" else alt_attr ++ " ") ++ "/>") _
      (by simp only [String.append_assoc])
  · intro hs; rw [if_pos hs, String.append_empty]
  · intro hs
    rw [if_neg hs]
    constructor
    · exact occursIn_of_eq alt_attr
        ("<img " ++ src_attr oid b ++ " " ++
          srcset_attr4 (srcset_entry oid a) (srcset_entry oid b)
            (srcset_entry oid c) (srcset_entry oid d) ++ " " ++ sizes_attr ++
          " ") (" " ++ "/>") _ (by simp only [String.append_assoc])
    · simp only [String.append_assoc]

set_option maxRecDepth 8192 in
/-- Closed witness for create_img_tag_spec at the inputs of the repository
test suite: identifier 777, widths 300, 500, 700, 900 and no caption.  The
output string matches the expected value of test_create_image_tag
character for character, with a default source referencing width 500. -/
theorem create_img_tag_spec_witness :
    (300 : Nat) < 500 ∧
    create_img_tag 777 [300, 500, 700, 900] "" =
      some "<img src=\"\x7b\x7b site.assets_url \x7d\x7d/777-500.jpg\" srcset=\"\x7b\x7b site.assets_url \x7d\x7d/777-300.jpg 300w, \x7b\x7b site.assets_url \x7d\x7d/777-500.jpg 500w, \x7b\x7b site.assets_url \x7d\x7d/777-700.jpg 700w, \x7b\x7b site.assets_url \x7d\x7d/777-900.jpg 900w\" sizes=\"(min-width: 700px) 50vw, calc(100vw - 2rem)\" />" ∧
    occursIn (src_attr 777 500)
      "<img src=\"\x7b\x7b site.assets_url \x7d\x7d/777-500.jpg\" srcset=\"\x7b\x7b site.assets_url \x7d\x7d/777-300.jpg 300w, \x7b\x7b site.assets_url \x7d\x7d/777-500.jpg 500w, \x7b\x7b site.assets_url \x7d\x7d/777-700.jpg 700w, \x7b\x7b site.assets_url \x7d\x7d/777-900.jpg 900w\" sizes=\"(min-width: 700px) 50vw, calc(100vw - 2rem)\" />" := by
  obtain ⟨tag, h1, h2, -⟩ :=
    create_img_tag_spec 777 300 500 700 900 "" (by decide) (by decide)
      (by decide)
  have he : create_img_tag 777 [300, 500, 700, 900] "" =
      some "<img src=\"\x7b\x7b site.assets_url \x7d\x7d/777-500.jpg\" srcset=\"\x7b\x7b site.assets_url \x7d\x7d/777-300.jpg 300w, \x7b\x7b site.assets_url \x7d\x7d/777-500.jpg 500w, \x7b\x7b site.assets_url \x7d\x7d/777-700.jpg 700w, \x7b\x7b site.assets_url \x7d\x7d/777-900.jpg 900w\" sizes=\"(min-width: 700px) 50vw, calc(100vw - 2rem)\" />" := by
    decide
  have ht : tag = "<img src=\"\x7b\x7b site.assets_url \x7d\x7d/777-500.jpg\" srcset=\"\x7b\x7b site.assets_url \x7d\x7d/777-300.jpg 300w, \x7b\x7b site.assets_url \x7d\x7d/777-500.jpg 500w, \x7b\x7b site.assets_url \x7d\x7d/777-700.jpg 700w, \x7b\x7b site.assets_url \x7d\x7d/777-900.jpg 900w\" sizes=\"(min-width: 700px) 50vw, calc(100vw - 2rem)\" />" := by
    rw [he] at h1
    exact Option.some.inj h1.symm
  exact ⟨by decide, he, ht ▸ h2⟩

/-- C10: create_img_tag is total only on widths lists with at least four
elements: any shorter list (including those too short for the default
source at index 1) makes it raise an index error, and on longer lists the
output only reflects the first four widths. -/
theorem create_img_tag_short_lists :
    (∀ (oid : Nat) (summary : String) (widths : List Nat),
      widths.length < 4 → create_img_tag oid widths summary = none) ∧
    (∀ (oid : Nat) (summary : String) (widths : List Nat),
      4 < widths.length →
      create_img_tag oid widths summary =
        create_img_tag oid (widths.take 4) summary) := by
  constructor
  · intro oid summary widths hlen
    match widths with
    | [] => rfl
    | [a] => rfl
    | [a, b] => rfl
    | [a, b, c] => rfl
    | a :: b :: c :: d :: rest => simp at hlen; omega
  · intro oid summary widths hlen
    match widths with
    | a :: b :: c :: d :: e :: rest => rfl
    | [] | [a] | [a, b] | [a, b, c] | [a, b, c, d] => simp at hlen

/-- Closed witness for create_img_tag_short_lists: a two-element widths list
raises, and a five-element list produces the same tag as its first four
widths. -/
theorem create_img_tag_short_lists_witness :
    create_img_tag 7 [10, 20] "x" = none ∧
    create_img_tag 7 [1, 2, 3, 4, 5] "x" =
      create_img_tag 7 ([1, 2, 3, 4, 5].take 4) "x" :=
  ⟨create_img_tag_short_lists.1 7 "x" [10, 20] (by decide),
   create_img_tag_short_lists.2 7 "x" [1, 2, 3, 4, 5] (by decide)⟩

/-- One entry of the attachments JSON array posted by Mailgun, with fields
url, name and content-type; the JSON decoding itself is done by the json
library and is modelled as already performed. -/
structure Attachment where
  url : String
  name : String
  contentType : String

/-- Error taxonomy of download_attachments: NoAttachment models the
IndexError raised by indexing an empty attachment list, UnsupportedType the
ValueError (with its message) raised for a non-image content type. -/
inductive FetchError where
  | NoAttachment
  | UnsupportedType (msg : String)
  deriving DecidableEq

/-- Models the Python str.startswith method on character lists. -/
def startswith : List Char → List Char → Bool
  | [], _ => true
  | _ :: _, [] => false
  | a :: ps, b :: ss => a = b && startswith ps ss

/-- The module-level TEMP_PATH constant from src/server.py. -/
def TEMP_PATH : String := "/tmp"

/-- Embedding of download_attachments from src/server.py, up to the network
download: it reads exactly the first entry of the attachment list (an empty
list raises), rejects content types that do not start with image before any
download is attempted, and otherwise returns the save path
TEMP_PATH/name together with the content type under which the download
side effect then runs. -/
def download_attachments (attachments : List Attachment) :
    Except FetchError (String × String) :=
  match attachments with
  | [] => .error .NoAttachment
  | attachment :: _ =>
    let content_type := attachment.contentType
    if ¬ (startswith "image".data content_type.data) then
      .error (.UnsupportedType
        ("Unsupported file type \x27" ++ content_type ++ "\x27"))
    else
      .ok (TEMP_PATH ++ "/" ++ attachment.name, content_type)

/-- C8: download_attachments parses exactly the first entry of the
attachment list (its result never depends on later entries), fails with
NoAttachment on an empty list, and when the first entry has a declared
content type that does not begin with image it fails, before the download
step, with UnsupportedType whose message contains the offending type
string. -/
theorem download_attachments_first_entry_and_errors :
    download_attachments [] = .error .NoAttachment ∧
    (∀ (a : Attachment) (rest : List Attachment),
      download_attachments (a :: rest) = download_attachments [a]) ∧
    (∀ (a : Attachment) (rest : List Attachment),
      startswith "image".data a.contentType.data = false →
      download_attachments (a :: rest) =
        .error (.UnsupportedType
          ("Unsupported file type \x27" ++ a.contentType ++ "\x27")) ∧
      occursIn a.contentType
        ("Unsupported file type \x27" ++ a.contentType ++ "\x27")) := by
  refine ⟨rfl, ?_, ?_⟩
  · intro a rest; rfl
  · intro a rest hpre
    constructor
    · simp only [download_attachments, hpre, Bool.false_eq_true,
        not_false_eq_true, if_pos]
    · exact occursIn_of_eq a.contentType "Unsupported file type \x27"
        "\x27" _ (by simp only [String.append_assoc])

/-- Closed witness for download_attachments_first_entry_and_errors: the
content type text/plain of the repository test suite is rejected with an
UnsupportedType message containing text/plain. -/
theorem download_attachments_first_entry_and_errors_witness :
    download_attachments
      [⟨"http://download.attachment/bad-type.txt", "bad-type.txt",
        "text/plain"⟩] =
      Except.error (FetchError.UnsupportedType
        ("Unsupported file type \x27" ++ "text/plain" ++ "\x27")) ∧
    occursIn "text/plain"
      ("Unsupported file type \x27" ++ "text/plain" ++ "\x27") :=
  download_attachments_first_entry_and_errors.2.2
    ⟨"http://download.attachment/bad-type.txt", "bad-type.txt", "text/plain"⟩
    [] (by decide)

/-- Models the Python str.split method for a single-character separator:
splitting the empty string gives one empty field, every occurrence of the
separator starts a new field. -/
def splitOnChar (c : Char) : List Char → List (List Char)
  | [] => [[]]
  | x :: xs =>
    let rest := splitOnChar c xs
    if x = c then [] :: rest
    else
      match rest with
      | r :: rs => (x :: r) :: rs
      | [] => [[x]]

/-- The expression int(p.split(dot)[0].split(dash)[-1]) from get_new_oid:
the numeric suffix of a post filename of the form date-identifier.md. -/
def extract_oid (p : String) : Option Int :=
  pyInt ((splitOnChar '-' ((splitOnChar '.' p.data).headD [])).getLastD [])

/-- Embedding of get_new_oid from src/server.py: the directory listing of
blog/_posts is passed in as the list of filenames; their numeric suffixes
are sorted and the successor of the last (largest) one is returned.  none
models the exceptions of the source: the ValueError of int() on a
malformed name, or the IndexError of sorted_oids[-1] when the listing is
empty. -/
def get_new_oid (posts : List String) : Option Int :=
  match posts.mapM extract_oid with
  | none => none
  | some oids =>
    let sorted_oids := oids.mergeSort (fun a b => decide (a ≤ b))
    match sorted_oids.getLast? with
    | none => none
    | some m => some (m + 1)

theorem le_getLast_of_pairwise :
    ∀ (l : List Int), l.Pairwise (fun a b : Int => a ≤ b) →
      ∀ (h : l ≠ []) (x : Int), x ∈ l → x ≤ l.getLast h := by
  intro l
  induction l with
  | nil => intro _ h; exact absurd rfl h
  | cons a tl ih =>
    intro hp h x hx
    cases tl with
    | nil =>
      simp only [List.mem_singleton] at hx
      simp [hx, List.getLast]
    | cons b tl2 =>
      rw [List.getLast_cons (by simp)]
      rcases List.mem_cons.mp hx with rfl | hx2
      · have hmem := List.getLast_mem (show b :: tl2 ≠ [] by simp)
        exact (List.pairwise_cons.mp hp).1 _ hmem
      · exact ih (List.pairwise_cons.mp hp).2 (by simp) x hx2

/-- C9: for every nonempty listing of post filenames whose suffixes all
parse, get_new_oid returns one greater than the maximum numeric suffix; an
empty listing fails (IndexError); and the repository test listing with
suffixes 0, 1, 3 yields 4. -/
theorem get_new_oid_spec :
    (∀ (posts : List String) (oids : List Int),
      posts.mapM extract_oid = some oids → oids ≠ [] →
      ∃ m, m ∈ oids ∧ (∀ x ∈ oids, x ≤ m) ∧
        get_new_oid posts = some (m + 1)) ∧
    get_new_oid [] = none ∧
    get_new_oid ["2012-05-15-0.md", "2016-11-02-1.md", "2017-01-16-3.md"] =
      some 4 := by
  have hgen : ∀ (posts : List String) (oids : List Int),
      posts.mapM extract_oid = some oids → oids ≠ [] →
      ∃ m, m ∈ oids ∧ (∀ x ∈ oids, x ≤ m) ∧
        get_new_oid posts = some (m + 1) := by
    intro posts oids hmap hne
    set l := oids.mergeSort (fun a b => decide (a ≤ b)) with hl
    have hperm : l.Perm oids := List.mergeSort_perm oids _
    have hlne : l ≠ [] := by
      intro h0
      exact hne (List.Perm.eq_nil (h0 ▸ hperm.symm))
    have hsorted : l.Pairwise (fun a b : Int => a ≤ b) := by
      have := @List.sorted_mergeSort Int (fun a b : Int => decide (a ≤ b))
        (fun a b c hab hbc => by
          simp only [decide_eq_true_eq] at *; omega)
        (fun a b => by
          simp only [Bool.or_eq_true, decide_eq_true_eq]; omega)
        oids
      exact this.imp (fun h => by simpa using h)
    refine ⟨l.getLast hlne, ?_, ?_, ?_⟩
    · exact hperm.mem_iff.mp (List.getLast_mem hlne)
    · intro x hx
      exact le_getLast_of_pairwise l hsorted hlne x (hperm.mem_iff.mpr hx)
    · rw [get_new_oid, hmap]
      simp only [← hl]
      rw [List.getLast?_eq_getLast l hlne]
  have hnil : get_new_oid [] = none := by
    rw [get_new_oid]
    have h0 : ([] : List String).mapM extract_oid = some [] := rfl
    rw [h0]
    simp
  refine ⟨hgen, hnil, ?_⟩
  have hmap : ["2012-05-15-0.md", "2016-11-02-1.md",
      "2017-01-16-3.md"].mapM extract_oid = some [0, 1, 3] := by decide
  obtain ⟨m, hmem, hub, hres⟩ := hgen _ _ hmap (by decide)
  have hm : m = 3 := by
    have h3 := hub 3 (by decide)
    simp only [List.mem_cons, List.not_mem_nil, or_false] at hmem
    rcases hmem with rfl | rfl | rfl <;> omega
  subst hm
  simpa using hres

/-- Closed witness for get_new_oid_spec: the three filenames of the
repository test suite parse to suffixes 0, 1, 3 and the next identifier is
4. -/
theorem get_new_oid_spec_witness :
    ["2012-05-15-0.md", "2016-11-02-1.md",
      "2017-01-16-3.md"].mapM extract_oid = some [0, 1, 3] ∧
    get_new_oid ["2012-05-15-0.md", "2016-11-02-1.md", "2017-01-16-3.md"] =
      some 4 := by
  obtain ⟨m, hmem, hub, hres⟩ := get_new_oid_spec.1
    ["2012-05-15-0.md", "2016-11-02-1.md", "2017-01-16-3.md"] [0, 1, 3]
    (by decide) (by decide)
  have hm : m = 3 := by
    have h3 := hub 3 (by decide)
    simp only [List.mem_cons, List.not_mem_nil, or_false] at hmem
    rcases hmem with rfl | rfl | rfl <;> omega
  subst hm
  exact ⟨by decide, by simpa using hres⟩
